import Mathlib

/-!
Verification of the orchestration core of the "should-i-move" repository.

The development shallowly embeds the deterministic parts of the Python
source: the keyword-based completeness predicates, the elicitation loop of
gather_user_information (both the coordination and the cooperation
variants), the cooperation orchestration in main of 03-agno-cooperation.py,
the router flow of 02-agno-router.py, the report-file naming and the
report-retrieval glob of api.py, and the module-import structure of api.py.
Opaque reasoning-engine calls are modelled as environment functions; an
exception raised by such a call is modelled as the function returning none.
-/

/- ## Python string primitives used by the source -/

/-- Model of str.lower(): lowercase every character (ASCII semantics). -/
def pyLower (s : String) : List Char :=
  s.data.map Char.toLower

/-- needle begins haystack (character lists). -/
def charsBegin : List Char → List Char → Bool
  | [], _ => true
  | _ :: _, [] => false
  | c :: cs, d :: ds => c == d && charsBegin cs ds

/-- Model of the Python substring test needle in haystack. -/
def charsOccur : List Char → List Char → Bool
  | [], _ => true
  | _ :: _, [] => false
  | c :: cs, d :: ds => charsBegin (c :: cs) (d :: ds) || charsOccur (c :: cs) ds

/-- term in history_lower, as the source writes it (term is a literal). -/
def termOccurs (term : String) (historyLower : List Char) : Bool :=
  charsOccur term.data historyLower

/-- One word of str.split(): whitespace-separated maximal non-space runs. -/
def wordsFoldStep (c : Char) (acc : List (List Char)) : List (List Char) :=
  if c.isWhitespace then [] :: acc
  else
    match acc with
    | [] => [[c]]
    | w :: ws => (c :: w) :: ws

/-- Model of str.split() with no argument: split on whitespace, drop empties. -/
def pyWords (s : String) : List (List Char) :=
  (s.data.foldr wordsFoldStep []).filter (fun w => !w.isEmpty)

/-- len(s.split()) of the validation checks. -/
def pyWordCount (s : String) : Nat :=
  (pyWords s).length

/- ## Keyword configuration of has_comprehensive_info
   (identical lists in 02-agno-coordination.py and 03-agno-cooperation.py;
   the priority list exists only in the cooperation variant) -/

def incomeTerms : List String :=
  ["income", "salary", "earn", "make", "$"]

def expenseTerms : List String :=
  ["expense", "spend", "budget", "cost"]

def preferenceTerms : List String :=
  ["prefer", "like", "love", "value", "important", "want", "need"]

def likeTerms : List String :=
  ["like about", "love about", "enjoy", "appreciate", "good thing"]

def dislikeTerms : List String :=
  ["dislike", "hate", "don\x27t like", "problem with", "issue with", "bad thing"]

def priorityTerms : List String :=
  ["most important", "biggest priority", "key factor", "mainly concerned",
   "priority is", "matters most", "primary concern"]

/-- has_income of the source: any income term occurs in the lowered history. -/
def hasIncomeSignal (history : String) : Bool :=
  incomeTerms.any (fun t => termOccurs t (pyLower history))

/-- has_expenses of the source. -/
def hasExpenseSignal (history : String) : Bool :=
  expenseTerms.any (fun t => termOccurs t (pyLower history))

/-- has_preferences of the source. -/
def hasPreferenceSignal (history : String) : Bool :=
  preferenceTerms.any (fun t => termOccurs t (pyLower history))

/-- has_likes of the source. -/
def hasLikesSignal (history : String) : Bool :=
  likeTerms.any (fun t => termOccurs t (pyLower history))

/-- has_dislikes of the source. -/
def hasDislikesSignal (history : String) : Bool :=
  dislikeTerms.any (fun t => termOccurs t (pyLower history))

/-- has_priority of the cooperation source. -/
def hasPrioritySignal (history : String) : Bool :=
  priorityTerms.any (fun t => termOccurs t (pyLower history))

/-- has_comprehensive_info of 02-agno-coordination.py: financial signal,
preference signal, current-city opinion signal, and at least 3 rounds. -/
def coordHasComprehensiveInfo (history : String) (questionCount : Nat) : Bool :=
  (hasIncomeSignal history || hasExpenseSignal history) &&
  hasPreferenceSignal history &&
  (hasLikesSignal history || hasDislikesSignal history) &&
  decide (3 ≤ questionCount)

/-- has_comprehensive_info of 03-agno-cooperation.py: as in the coordination
variant, plus the priority-factor signal. -/
def coopHasComprehensiveInfo (history : String) (questionCount : Nat) : Bool :=
  (hasIncomeSignal history || hasExpenseSignal history) &&
  hasPreferenceSignal history &&
  (hasLikesSignal history || hasDislikesSignal history) &&
  hasPrioritySignal history &&
  decide (3 ≤ questionCount)

/- ## Data model: the UserProfile schemas of the three variants -/

/-- UserProfile of 02-agno-coordination.py and sub_agents/schemas.py. -/
structure UserProfile where
  current_city : String
  desired_city : String
  annual_income : Option ℚ
  monthly_expenses : Option ℚ
  city_preferences : List String
  current_city_likes : List String
  current_city_dislikes : List String
deriving DecidableEq

/-- UserProfile of 03-agno-cooperation.py: the same fields plus the
optional most_important_factor. -/
structure CoopUserProfile where
  current_city : String
  desired_city : String
  annual_income : Option ℚ
  monthly_expenses : Option ℚ
  city_preferences : List String
  current_city_likes : List String
  current_city_dislikes : List String
  most_important_factor : Option String
deriving DecidableEq

/-- UserProfile of 02-agno-router.py. -/
structure RouterUserProfile where
  current_city : String
  desired_city : String
  primary_concern : String
  additional_context : Option String
deriving DecidableEq

/-- Python truthiness of an Optional[str] field: false for None and "". -/
def pyTruthyOpt : Option String → Bool
  | none => false
  | some s => !s.isEmpty

/-- Profile validation of the coordination extraction step: both cities are
truthy (non-empty) and each splits into at most 4 whitespace tokens. -/
def coordValidateProfile (p : UserProfile) : Bool :=
  !p.current_city.isEmpty && !p.desired_city.isEmpty &&
  decide (pyWordCount p.current_city ≤ 4) &&
  decide (pyWordCount p.desired_city ≤ 4)

/-- Profile validation of the cooperation extraction step: additionally the
most_important_factor must be truthy (checked between the city truthiness
tests and the token-length tests, as in the source). -/
def coopValidateProfile (p : CoopUserProfile) : Bool :=
  !p.current_city.isEmpty && !p.desired_city.isEmpty &&
  pyTruthyOpt p.most_important_factor &&
  decide (pyWordCount p.current_city ≤ 4) &&
  decide (pyWordCount p.desired_city ≤ 4)

/-- The default UserProfile returned when even the final extraction fails
(coordination variant). -/
def coordDefaultProfile : UserProfile :=
  { current_city := "Unknown City"
    desired_city := "Unknown Destination"
    annual_income := none
    monthly_expenses := none
    city_preferences := ["general livability"]
    current_city_likes := ["some aspects"]
    current_city_dislikes := ["some aspects"] }

/-- The default UserProfile of the cooperation variant. -/
def coopDefaultProfile : CoopUserProfile :=
  { current_city := "Unknown City"
    desired_city := "Unknown Destination"
    annual_income := none
    monthly_expenses := none
    city_preferences := ["general livability"]
    current_city_likes := ["some aspects"]
    current_city_dislikes := ["some aspects"]
    most_important_factor := some "overall quality of life" }

/- ## The elicitation loop of gather_user_information

The loop body is identical in the coordination and the cooperation files up
to the configured maximum, the completeness predicate, the validation check,
the prompt texts and the profile schema, so it is embedded once and
instantiated per file. Calls into the reasoning engine are the environment;
a call that raises an exception is modelled as returning none. The user
input of a round is the environment answer function (already stripped, as
input(...).strip() in the source). -/

/-- The opaque collaborators of one elicitation session. -/
structure GatherEnv (α : Type) where
  extract : String → Option α
  question : String → Option String
  answer : Nat → String

/-- The per-variant configuration of the elicitation loop. -/
structure GatherConfig (α : Type) where
  maxQuestions : Nat
  complete : String → Nat → Bool
  validate : α → Bool
  defaultProfile : α
  earlyExtractSuffix : String
  questionSuffix : String
  finalExtractSuffix : String

/-- Result of one elicitation session, tagged by how the profile was
obtained; the count is the number of question rounds asked. -/
inductive GatherResult (α : Type) where
  | early (p : α) (count : Nat)
  | finalExtract (p : α) (count : Nat)
  | fallback (count : Nat)
deriving DecidableEq

/-- Question count of a gather result. -/
def gatherCount : GatherResult α → Nat
  | .early _ c => c
  | .finalExtract _ c => c
  | .fallback c => c

/-- The profile a gather result delivers; the fallback delivers the default
profile of the variant. -/
def gatherProfile (cfg : GatherConfig α) : GatherResult α → α
  | .early p _ => p
  | .finalExtract p _ => p
  | .fallback _ => cfg.defaultProfile

/-- Empty answers are replaced by a fixed sentence, as in the source. -/
def pyAnswerFix (raw : String) : String :=
  if raw = "" then "I\x27d prefer not to answer that." else raw

/-- The final best-effort extraction after the loop: on success the profile
is returned, on an exception the default profile is used. -/
def gatherFinal (cfg : GatherConfig α) (env : GatherEnv α)
    (history : String) (count : Nat) : GatherResult α :=
  match env.extract (history ++ cfg.finalExtractSuffix) with
  | some p => .finalExtract p count
  | none => .fallback count

/-- The guarded extraction attempt at the top of a loop iteration: only when
the completeness predicate holds is extraction tried; an extraction
exception or a failed validation yields none (the loop then proceeds to ask
one more question). -/
def earlyExtractAttempt (cfg : GatherConfig α) (env : GatherEnv α)
    (history : String) (count : Nat) : Option α :=
  if cfg.complete history count then
    match env.extract (history ++ cfg.earlyExtractSuffix) with
    | some p => if cfg.validate p then some p else none
    | none => none
  else none

/-- The while loop of gather_user_information, structurally recursive on the
remaining question budget (the while condition question_count <
max_questions). A question-generation exception breaks out of the loop to
the final extraction, exactly as the outer try/except of the source. -/
def gatherLoopAux (cfg : GatherConfig α) (env : GatherEnv α) :
    Nat → String → Nat → GatherResult α
  | 0, history, count => gatherFinal cfg env history count
  | fuel + 1, history, count =>
    match earlyExtractAttempt cfg env history count with
    | some p => .early p count
    | none =>
      match env.question (history ++ cfg.questionSuffix) with
      | none => gatherFinal cfg env history count
      | some q =>
        gatherLoopAux cfg env fuel
          (history ++ "Assistant: " ++ q ++ "\n" ++ "User: " ++
            pyAnswerFix (env.answer count) ++ "\n\n")
          (count + 1)

/-- The loop entered at a given state. -/
def gatherLoop (cfg : GatherConfig α) (env : GatherEnv α)
    (history : String) (count : Nat) : GatherResult α :=
  gatherLoopAux cfg env (cfg.maxQuestions - count) history count

/-- Initial conversation history seeded with the first utterance; an empty
first utterance is replaced as in the source. -/
def initialHistory (initialInput : String) : String :=
  "User\x27s initial input: " ++
    (if initialInput = "" then "I\x27m considering a move but haven\x27t decided yet." else initialInput) ++
    "\n\n"

/-- Configuration of gather_user_information in 02-agno-coordination.py. -/
def coordGatherConfig : GatherConfig UserProfile :=
  { maxQuestions := 8
    complete := coordHasComprehensiveInfo
    validate := coordValidateProfile
    defaultProfile := coordDefaultProfile
    earlyExtractSuffix :=
      "\nExtract the complete UserProfile from this conversation. Ensure current_city and desired_city are specific city names."
    questionSuffix :=
      "\nBased on the conversation so far, what is the MOST IMPORTANT piece of missing information? Ask ONE question (or ONE topic with closely related sub-parts) to gather it."
    finalExtractSuffix :=
      "\nExtract the UserProfile from all available information. For current_city and desired_city, use the most specific city names mentioned. If only a state was mentioned, note that in the city field but try to get a city name." }

/-- Configuration of gather_user_information in 03-agno-cooperation.py. -/
def coopGatherConfig : GatherConfig CoopUserProfile :=
  { maxQuestions := 10
    complete := coopHasComprehensiveInfo
    validate := coopValidateProfile
    defaultProfile := coopDefaultProfile
    earlyExtractSuffix :=
      "\nExtract the complete UserProfile from this conversation. Ensure current_city and desired_city are specific city names. IMPORTANT: Extract the user\x27s most_important_factor."
    questionSuffix :=
      "\nBased on the conversation so far, what is the MOST IMPORTANT piece of missing information? Ask ONE question (or ONE topic with closely related sub-parts) to gather it."
    finalExtractSuffix :=
      "\nExtract the UserProfile from all available information. For current_city and desired_city, use the most specific city names mentioned. For most_important_factor, identify what the user cares about most." }

/-- gather_user_information of the coordination variant. -/
def coordGatherUserInformation (env : GatherEnv UserProfile)
    (initialInput : String) : GatherResult UserProfile :=
  gatherLoop coordGatherConfig env (initialHistory initialInput) 0

/-- gather_user_information of the cooperation variant. -/
def coopGatherUserInformation (env : GatherEnv CoopUserProfile)
    (initialInput : String) : GatherResult CoopUserProfile :=
  gatherLoop coopGatherConfig env (initialHistory initialInput) 0

/- ## The cooperation orchestration (main of 03-agno-cooperation.py) -/

/-- priority_str of the cooperation main: the most_important_factor if it is
truthy, else the fixed default (Python or-expression). -/
def priorityStr (p : CoopUserProfile) : String :=
  match p.most_important_factor with
  | some s => if s.isEmpty then "overall quality of life" else s
  | none => "overall quality of life"

/-- income_str and expenses_str: "Not specified" for a falsy value, else a
dollar amount (the decimal/comma rendering of the f-string is abstracted to
plain toString; no claim depends on digit formatting). -/
def formatMoney : Option ℚ → String
  | none => "Not specified"
  | some q => if q = 0 then "Not specified" else "$" ++ toString q

/-- preferences_str, likes_str and dislikes_str: comma-joined list or the
fixed fallback for an empty (falsy) list. -/
def joinOrNotSpecified (l : List String) : String :=
  if l.isEmpty then "Not specified" else String.intercalate ", " l

/-- The part of agent_task before the first occurrence of priority_str. -/
def coopAgentTaskPre (p : CoopUserProfile) : String :=
  "\nThe user is considering moving from " ++ p.current_city ++ " to " ++
  p.desired_city ++ ".\n\nKey user profile:\n- Current City: " ++
  p.current_city ++ "\n- Desired City: " ++ p.desired_city ++
  "\n- Annual Income: " ++ formatMoney p.annual_income ++
  "\n- Monthly Expenses: " ++ formatMoney p.monthly_expenses ++
  "\n- Preferences: " ++ joinOrNotSpecified p.city_preferences ++
  "\n- Likes about current city: " ++ joinOrNotSpecified p.current_city_likes ++
  "\n- Dislikes: " ++ joinOrNotSpecified p.current_city_dislikes ++
  "\n- MOST IMPORTANT FACTOR: "

/-- The part of agent_task after the first occurrence of priority_str. -/
def coopAgentTaskPost (p : CoopUserProfile) : String :=
  " — prioritize and weight every part of your analysis by " ++
  (priorityStr p ++
    (" above all else.\n\nTask: Analyze this move with " ++
      (priorityStr p ++
        (" as the primary lens. Provide your complete structured analysis.\nRemember: The user\x27s MOST IMPORTANT FACTOR is " ++
          (priorityStr p ++ ". Weight all advice accordingly.\n")))))

/-- agent_task of the cooperation main: built once from the profile and then
handed to each worker call. -/
def coopAgentTask (p : CoopUserProfile) : String :=
  coopAgentTaskPre p ++ (priorityStr p ++ coopAgentTaskPost p)

/-- The three specialist workers of the cooperation team. -/
inductive CoopWorker where
  | cost
  | sentiment
  | migration
deriving DecidableEq, BEq

/-- The prompt each worker call receives in the cooperation main: every one
of the three run calls is passed the same agent_task value. -/
def coopWorkerPrompt (_ : CoopWorker) (p : CoopUserProfile) : String :=
  coopAgentTask p

/-- Invocation events of the cooperation orchestration. -/
inductive CoopEvent where
  | callBegin (w : CoopWorker)
  | callDone (w : CoopWorker)
  | synthesize
deriving DecidableEq, BEq

/-- Index of the first occurrence of an element in a list. -/
def listIdx [BEq α] : List α → α → Nat
  | [], _ => 0
  | x :: xs, a => if x == a then 0 else listIdx xs a + 1

/-- The event order of main in 03-agno-cooperation.py: the three worker run
calls are plain sequential blocking calls (cost analyst, then sentiment
analyst, then migration researcher), each returning before the next call
starts, followed by the synthesis call on the team. -/
def cooperateSchedule : List CoopEvent :=
  [.callBegin .cost, .callDone .cost,
   .callBegin .sentiment, .callDone .sentiment,
   .callBegin .migration, .callDone .migration,
   .synthesize]

/-- Two worker calls run concurrently in a schedule when their call
intervals overlap: each begins before the other is done. -/
def runsConcurrently (sched : List CoopEvent) (w₁ w₂ : CoopWorker) : Bool :=
  decide (listIdx sched (.callBegin w₁) < listIdx sched (.callDone w₂)) &&
  decide (listIdx sched (.callBegin w₂) < listIdx sched (.callDone w₁))

/-- Outcome of one worker run call in the cooperation main: the call can
raise an exception, return a response without a content attribute, or
return structured content. -/
inductive WorkerOutcome where
  | raises
  | missingContent
  | withContent (s : String)
deriving DecidableEq

/-- One worker call as the cooperation main observes it: an exception
propagates (there is no try/except around the run calls); a response
without content contributes nothing to agent_results. -/
def runCoopWorker : WorkerOutcome → Except Unit (Option String)
  | .raises => .error ()
  | .missingContent => .ok none
  | .withContent s => .ok (some s)

/-- The per-worker findings handed to the synthesis step. -/
structure SynthesisFindings where
  cost : String
  sentiment : String
  migration : String
deriving DecidableEq

/-- The cooperation main from the first worker call to the assembly of the
synthesis context: the three calls run in order, an exception anywhere
aborts the whole request, and a worker absent from agent_results is
rendered as "Not available" in the synthesis context. -/
def cooperateGatherFindings (c s m : WorkerOutcome) :
    Except Unit SynthesisFindings := do
  let rc ← runCoopWorker c
  let rs ← runCoopWorker s
  let rm ← runCoopWorker m
  pure { cost := rc.getD "Not available"
         sentiment := rs.getD "Not available"
         migration := rm.getD "Not available" }

/- ## The router flow (02-agno-router.py) -/

/-- The concern_map of gather_user_information in the router variant. -/
def routerConcernMap : List (String × String) :=
  [("1", "cost"), ("2", "culture"), ("3", "experiences")]

/-- First non-empty entry of a sequence of (stripped) user inputs; the
source loops until the user supplies one. -/
def firstNonEmpty : List String → Option String
  | [] => none
  | s :: rest => if s = "" then firstNonEmpty rest else some s

/-- First input accepted by concern_map; the source loops until the user
enters 1, 2 or 3. -/
def firstValidChoice : List String → Option String
  | [] => none
  | s :: rest =>
    match routerConcernMap.find? (fun kv => kv.1 == s) with
    | some kv => some kv.2
    | none => firstValidChoice rest

/-- gather_user_information of 02-agno-router.py over the sequences of user
inputs; none models a session whose retry loops never receive a valid
input (the source would keep prompting forever). -/
def routerGatherUserInformation (currentInputs desiredInputs choiceInputs : List String)
    (additionalContext : String) : Option RouterUserProfile :=
  match firstNonEmpty currentInputs with
  | none => none
  | some cur =>
    match firstNonEmpty desiredInputs with
    | none => none
    | some des =>
      match firstValidChoice choiceInputs with
      | none => none
      | some concern =>
        some { current_city := cur
               desired_city := des
               primary_concern := concern
               additional_context :=
                 if additionalContext = "" then none else some additionalContext }

/-- The three specialist members of the router team. -/
inductive RouteTarget where
  | costAnalyst
  | sentimentAnalyst
  | migrationResearcher
deriving DecidableEq, BEq

/-- The routing policy declared in the move_decision_router Team
configuration: cost concerns go to the cost analyst, culture concerns to
the sentiment analyst, experience concerns to the migration researcher, and
an unclear concern defaults to the cost analyst when any financial mention
exists and otherwise to the sentiment analyst. The dispatch itself is
carried out by the reasoning engine, bound by these instructions. -/
def routeSpecialist (primaryConcern : String) (hasFinancialMention : Bool) :
    RouteTarget :=
  if primaryConcern = "cost" then .costAnalyst
  else if primaryConcern = "culture" then .sentimentAnalyst
  else if primaryConcern = "experiences" then .migrationResearcher
  else if hasFinancialMention then .costAnalyst
  else .sentimentAnalyst

/-- The router delegates to exactly one specialist per request ("always
delegate to exactly ONE specialist agent"). -/
def invokedSpecialists (p : RouterUserProfile) (hasFinancialMention : Bool) :
    List RouteTarget :=
  [routeSpecialist p.primary_concern hasFinancialMention]

/-- respond_directly=True on the router team: the selected member response
is returned as the answer with no further synthesis by the team leader. -/
def moveDecisionRouterRespondDirectly : Bool := true

/- ## Report-file naming and retrieval (02-agno-router.py main, api.py) -/

/-- Lowercase-alphanumeric test of the regex class [a-z0-9]. -/
def isLowerAlnumChar (c : Char) : Bool :=
  ('a' ≤ c && c ≤ 'z') || ('0' ≤ c && c ≤ '9')

/-- str.strip of a single character from both ends (here always the
underscore, as in .strip of the router main). -/
def dropUnderscoreEnds (l : List Char) : List Char :=
  ((l.dropWhile (fun c => c == '_')).reverse.dropWhile (fun c => c == '_')).reverse

/-- City normalization of the router main: lowercase, every character
outside [a-z0-9] replaced by an underscore, underscores stripped from both
ends. -/
def routerNormalizeCity (s : String) : String :=
  String.mk (dropUnderscoreEnds
    ((pyLower s).map (fun c => if isLowerAlnumChar c then c else '_')))

/-- The report filename the router main writes under reports/. -/
def routerReportFilename (cur des ts : String) : String :=
  routerNormalizeCity cur ++ "_to_" ++ routerNormalizeCity des ++ "_" ++ ts ++
    "_router_analysis.md"

/-- The report filename contract stated in the coordinator Team
configuration of agno-coordinator.py (the write_file tool is instructed to
use exactly this name): normalized cities, timestamp, suffix _analysis.md. -/
def coordinatorReportFilename (cur des ts : String) : String :=
  routerNormalizeCity cur ++ "_to_" ++ routerNormalizeCity des ++ "_" ++ ts ++
    "_analysis.md"

/-- Shell-style glob matching restricted to the star wildcard, the only
wildcard occurring in the api.py retrieval pattern; driven by a fuel that
strictly exceeds the joint length so the zero case is never reached. -/
def globMatchFuel : Nat → List Char → List Char → Bool
  | 0, _, _ => false
  | n + 1, pattern, s =>
    match pattern, s with
    | [], [] => true
    | [], _ :: _ => false
    | '*' :: ps, [] => globMatchFuel n ps []
    | '*' :: ps, c :: cs =>
      globMatchFuel n ps (c :: cs) || globMatchFuel n ('*' :: ps) cs
    | _ :: _, [] => false
    | p :: ps, c :: cs => p == c && globMatchFuel n ps cs

/-- Glob matching of a pattern against a name. -/
def globMatch (pattern s : List Char) : Bool :=
  globMatchFuel (pattern.length + s.length + 1) pattern s

/-- Glob matching on strings. -/
def globMatchStr (pattern s : String) : Bool :=
  globMatch pattern.data s.data

/-- The filename pattern get_report_markdown globs for inside reports/. -/
def apiReportGlob (ts : String) : String :=
  "*_" ++ ts ++ "_analysis.md"

/-- str.split on a single separator character, keeping empty pieces. -/
def pySplitOn (sep : Char) : List Char → List (List Char)
  | [] => [[]]
  | c :: cs =>
    if c == sep then [] :: pySplitOn sep cs
    else
      match pySplitOn sep cs with
      | [] => [[c]]
      | w :: ws => (c :: w) :: ws

/-- str.replace of every occurrence of a pattern by the empty string,
driven by an explicit fuel bounded by the input length. -/
def removeAllPatFuel (pat : List Char) : Nat → List Char → List Char
  | 0, l => l
  | _ + 1, [] => []
  | n + 1, c :: cs =>
    if charsBegin pat (c :: cs) then
      removeAllPatFuel pat n (List.drop (pat.length - 1) cs)
    else c :: removeAllPatFuel pat n cs

/-- analysis_id.replace("analysis_", ""). -/
def pyRemoveAll (pat : String) (s : List Char) : List Char :=
  removeAllPatFuel pat.data s.length s

/-- Timestamp extraction of get_report_markdown: require the analysis_
id marker, strip it, split on underscores and rejoin the first two pieces
(YYYYMMDD_HHMMSS); none models the 400 responses of the endpoint. -/
def extractReportTimestamp (analysisId : String) : Option String :=
  if charsBegin "analysis_".data analysisId.data then
    match pySplitOn '_' (pyRemoveAll "analysis_" analysisId.data) with
    | p0 :: p1 :: _ => some (String.mk p0 ++ "_" ++ String.mk p1)
    | _ => none
  else none

/- ## Module imports of the service flow (api.py) -/

/-- The Python files at the repository top level (the import root of
api.py). -/
def repoTopLevelPyFiles : List String :=
  ["02-agno-coordination.py", "02-agno-router.py", "03-agno-cooperation.py",
   "04-agno-agentos.py", "agno-coordinator.py", "api.py", "test_api.py"]

/-- The directories at the repository top level (importable as packages when
their names are valid identifiers). -/
def repoTopLevelDirs : List String :=
  ["brave_tools", "data", "docs", "nerdwallet-tools", "sub_agents"]

/-- Valid Python module identifier: a letter or underscore followed by
letters, digits and underscores. -/
def isPyIdentChar (c : Char) : Bool :=
  c.isAlpha || c.isDigit || c == '_'

/-- Validity of a module name. -/
def isValidModuleName (s : String) : Bool :=
  match s.data with
  | [] => false
  | c :: cs => (c.isAlpha || c == '_') && cs.all isPyIdentChar

/-- Stem of a .py file, when the extension is present. -/
def stripDotPy (f : String) : Option String :=
  match f.data.reverse with
  | 'y' :: 'p' :: '.' :: rest => some (String.mk rest.reverse)
  | _ => none

/-- The top-level module names importable in this repository: stems of the
.py files and directory names, kept only when they are valid identifiers. -/
def importableModules : List String :=
  (repoTopLevelPyFiles.filterMap (fun f =>
    match stripDotPy f with
    | some stem => if isValidModuleName stem then some stem else none
    | none => none)) ++
  repoTopLevelDirs.filter isValidModuleName

/-- The top-level names bound in agno-coordinator.py (besides imported
names): the animation helper class, the team object and two functions. -/
def agnoCoordinatorTopLevelDefs : List String :=
  ["ThinkingAnimation", "move_decision_team", "gather_user_information", "main"]

/-- The from-import api.py line 18 needs before anything in the module can
run: two names out of the module agno_coordinator. -/
def apiRequiredImports : List (String × String) :=
  [("agno_coordinator", "analyze_move_non_interactive"),
   ("agno_coordinator", "save_report")]

/-- Whether every import of api.py resolves to an importable module. -/
def apiImportResolves : Bool :=
  apiRequiredImports.all (fun mi => importableModules.contains mi.1)

/- ## Concrete sessions used to instantiate the theorems -/

/-- A concrete valid profile for the coordination demo session. -/
def demoProfile : UserProfile :=
  { current_city := "Dallas"
    desired_city := "Austin"
    annual_income := none
    monthly_expenses := none
    city_preferences := []
    current_city_likes := []
    current_city_dislikes := [] }

/-- A concrete valid profile for the cooperation demo session. -/
def demoCoopProfile : CoopUserProfile :=
  { current_city := "Dallas"
    desired_city := "Austin"
    annual_income := none
    monthly_expenses := none
    city_preferences := []
    current_city_likes := []
    current_city_dislikes := []
    most_important_factor := some "affordability" }

/-- A demo environment whose third answer supplies every keyword category;
extraction always succeeds with the demo profile. -/
def demoEnv : GatherEnv UserProfile :=
  { extract := fun _ => some demoProfile
    question := fun _ => some "q?"
    answer := fun n =>
      if n == 2 then "income budget prefer enjoy dislike most important" else "ok" }

/-- The cooperation counterpart of the demo environment. -/
def demoCoopEnv : GatherEnv CoopUserProfile :=
  { extract := fun _ => some demoCoopProfile
    question := fun _ => some "q?"
    answer := fun n =>
      if n == 2 then "income budget prefer enjoy dislike most important" else "ok" }

/-- An environment whose extraction engine always raises. -/
def failExtractEnv : GatherEnv UserProfile :=
  { extract := fun _ => none
    question := fun _ => some "q?"
    answer := fun _ => "ok" }

/-- The cooperation counterpart of the always-failing extraction
environment. -/
def failExtractCoopEnv : GatherEnv CoopUserProfile :=
  { extract := fun _ => none
    question := fun _ => some "q?"
    answer := fun _ => "ok" }

/- ## Helper lemmas about the elicitation loop -/

theorem gatherFinal_count (cfg : GatherConfig α) (env : GatherEnv α)
    (h : String) (c : Nat) : gatherCount (gatherFinal cfg env h c) = c := by
  unfold gatherFinal
  cases env.extract (h ++ cfg.finalExtractSuffix) <;> rfl

theorem gatherLoopAux_count_le (cfg : GatherConfig α) (env : GatherEnv α) :
    ∀ (fuel : Nat) (h : String) (c : Nat),
      gatherCount (gatherLoopAux cfg env fuel h c) ≤ c + fuel := by
  intro fuel
  induction fuel with
  | zero =>
    intro h c
    simp [gatherLoopAux, gatherFinal_count]
  | succ fuel ih =>
    intro h c
    rw [gatherLoopAux]
    cases hatt : earlyExtractAttempt cfg env h c with
    | some p => simp [gatherCount]
    | none =>
      simp only
      cases hq : env.question (h ++ cfg.questionSuffix) with
      | none =>
        simp only [gatherFinal_count]
        omega
      | some q =>
        dsimp only
        have := ih (h ++ "Assistant: " ++ q ++ "\n" ++ "User: " ++
          pyAnswerFix (env.answer c) ++ "\n\n") (c + 1)
        omega

theorem earlyExtractAttempt_eq_some (cfg : GatherConfig α) (env : GatherEnv α)
    (h : String) (c : Nat) (p : α)
    (hs : earlyExtractAttempt cfg env h c = some p) :
    cfg.complete h c = true ∧
    env.extract (h ++ cfg.earlyExtractSuffix) = some p ∧
    cfg.validate p = true := by
  unfold earlyExtractAttempt at hs
  cases hcomp : cfg.complete h c with
  | false => simp [hcomp] at hs
  | true =>
    simp only [hcomp, if_true] at hs
    cases hex : env.extract (h ++ cfg.earlyExtractSuffix) with
    | none => simp [hex] at hs
    | some p' =>
      simp only [hex] at hs
      cases hval : cfg.validate p' with
      | false => simp [hval] at hs
      | true =>
        simp only [hval, if_true, Option.some.injEq] at hs
        subst hs
        exact ⟨rfl, rfl, hval⟩

theorem gatherLoopAux_early (cfg : GatherConfig α) (env : GatherEnv α) :
    ∀ (fuel : Nat) (h : String) (c : Nat) (p : α) (c' : Nat),
      gatherLoopAux cfg env fuel h c = .early p c' →
      (∃ h', earlyExtractAttempt cfg env h' c' = some p) ∧ c ≤ c' := by
  intro fuel
  induction fuel with
  | zero =>
    intro h c p c' heq
    unfold gatherLoopAux gatherFinal at heq
    split at heq <;> cases heq
  | succ fuel ih =>
    intro h c p c' heq
    rw [gatherLoopAux] at heq
    cases hatt : earlyExtractAttempt cfg env h c with
    | some p₁ =>
      rw [hatt] at heq
      simp only at heq
      cases heq
      exact ⟨⟨h, hatt⟩, Nat.le_refl c⟩
    | none =>
      rw [hatt] at heq
      simp only at heq
      cases hq : env.question (h ++ cfg.questionSuffix) with
      | none =>
        rw [hq] at heq
        simp only at heq
        unfold gatherFinal at heq
        split at heq <;> cases heq
      | some q =>
        rw [hq] at heq
        simp only at heq
        have := ih _ _ _ _ heq
        exact ⟨this.1, Nat.le_trans (Nat.le_succ c) this.2⟩

theorem gatherLoopAux_step_ask (cfg : GatherConfig α) (env : GatherEnv α)
    (fuel : Nat) (h q : String) (c : Nat)
    (hatt : earlyExtractAttempt cfg env h c = none)
    (hq : env.question (h ++ cfg.questionSuffix) = some q) :
    gatherLoopAux cfg env (fuel + 1) h c =
      gatherLoopAux cfg env fuel
        (h ++ "Assistant: " ++ q ++ "\n" ++ "User: " ++
          pyAnswerFix (env.answer c) ++ "\n\n")
        (c + 1) := by
  rw [gatherLoopAux, hatt, hq]

theorem gatherLoopAux_extract_none (cfg : GatherConfig α) (env : GatherEnv α)
    (hx : env.extract = fun _ => none) :
    ∀ (fuel : Nat) (h : String) (c : Nat),
      ∃ n, gatherLoopAux cfg env fuel h c = .fallback n := by
  intro fuel
  induction fuel with
  | zero =>
    intro h c
    exact ⟨c, by simp [gatherLoopAux, gatherFinal, hx]⟩
  | succ fuel ih =>
    intro h c
    have hatt : earlyExtractAttempt cfg env h c = none := by
      simp [earlyExtractAttempt, hx]
    cases hq : env.question (h ++ cfg.questionSuffix) with
    | none =>
      refine ⟨c, ?_⟩
      rw [gatherLoopAux, hatt, hq]
      simp [gatherFinal, hx]
    | some q =>
      obtain ⟨n, hn⟩ := ih (h ++ "Assistant: " ++ q ++ "\n" ++ "User: " ++
        pyAnswerFix (env.answer c) ++ "\n\n") (c + 1)
      exact ⟨n, by rw [gatherLoopAux, hatt, hq]; exact hn⟩

theorem coordComplete_min_rounds (h : String) (c : Nat)
    (hc : coordHasComprehensiveInfo h c = true) : 3 ≤ c := by
  simp only [coordHasComprehensiveInfo, Bool.and_eq_true, decide_eq_true_eq] at hc
  exact hc.2

theorem coopComplete_min_rounds (h : String) (c : Nat)
    (hc : coopHasComprehensiveInfo h c = true) : 3 ≤ c := by
  simp only [coopHasComprehensiveInfo, Bool.and_eq_true, decide_eq_true_eq] at hc
  exact hc.2

theorem ne_empty_of_isEmpty_false (s : String) (h : s.isEmpty = false) :
    s ≠ "" := by
  intro hs
  subst hs
  exact absurd h (by decide)

/- ## Claim theorems -/

/-- C1 counterexample: has_comprehensive_info accepts a transcript that
names no place at all. The transcript below mentions income, budget,
preferences, a like and a dislike, and with three question rounds the
predicate accepts it (in both variants, the second transcript adding a
priority statement), although it contains no specific place name for the
current or the target location, so the claimed location-coverage
requirement does not hold. -/
theorem hasComprehensiveInfo_accepts_locationless_transcript :
    coordHasComprehensiveInfo
      "my income is fine and i budget carefully. i prefer quiet areas. i enjoy walking but dislike traffic."
      3 = true ∧
    coopHasComprehensiveInfo
      "my income is fine and i budget carefully. i prefer quiet areas. i enjoy walking but dislike traffic. the most important factor is budget."
      3 = true := by
  constructor <;> decide

/-- C1 amended: the completeness predicate checks only the keyword
categories it actually scans for — a financial signal, a preference signal,
a current-city opinion signal (plus a priority signal in the cooperation
variant) — together with at least three question rounds; it performs no
location check. The transcript consisting only of "I live in Texas" is
still never accepted, at any round count, because it matches none of the
scanned categories. -/
theorem hasComprehensiveInfo_checked_categories :
    (∀ qc, coordHasComprehensiveInfo "I live in Texas" qc = false) ∧
    (∀ qc, coopHasComprehensiveInfo "I live in Texas" qc = false) ∧
    (∀ t qc, coordHasComprehensiveInfo t qc = true →
      (hasIncomeSignal t || hasExpenseSignal t) = true ∧
      hasPreferenceSignal t = true ∧
      (hasLikesSignal t || hasDislikesSignal t) = true ∧ 3 ≤ qc) ∧
    (∀ t qc, coopHasComprehensiveInfo t qc = true →
      (hasIncomeSignal t || hasExpenseSignal t) = true ∧
      hasPreferenceSignal t = true ∧
      (hasLikesSignal t || hasDislikesSignal t) = true ∧
      hasPrioritySignal t = true ∧ 3 ≤ qc) := by
  refine ⟨fun qc => ?_, fun qc => ?_, fun t qc hc => ?_, fun t qc hc => ?_⟩
  · have h1 : hasIncomeSignal "I live in Texas" = false := by decide
    have h2 : hasExpenseSignal "I live in Texas" = false := by decide
    simp [coordHasComprehensiveInfo, h1, h2]
  · have h1 : hasIncomeSignal "I live in Texas" = false := by decide
    have h2 : hasExpenseSignal "I live in Texas" = false := by decide
    simp [coopHasComprehensiveInfo, h1, h2]
  · simp only [coordHasComprehensiveInfo, Bool.and_eq_true, decide_eq_true_eq] at hc
    exact ⟨hc.1.1.1, hc.1.1.2, hc.1.2, hc.2⟩
  · simp only [coopHasComprehensiveInfo, Bool.and_eq_true, decide_eq_true_eq] at hc
    exact ⟨hc.1.1.1.1, hc.1.1.1.2, hc.1.1.2, hc.1.2, hc.2⟩

/-- C1 witness: the necessity direction applied to a concrete accepted
transcript at round three. -/
theorem hasComprehensiveInfo_checked_categories_witness :
    (hasIncomeSignal "income stated; i prefer parks; i enjoy them; i dislike fog" ||
      hasExpenseSignal "income stated; i prefer parks; i enjoy them; i dislike fog") = true ∧
    hasPreferenceSignal "income stated; i prefer parks; i enjoy them; i dislike fog" = true ∧
    (hasLikesSignal "income stated; i prefer parks; i enjoy them; i dislike fog" ||
      hasDislikesSignal "income stated; i prefer parks; i enjoy them; i dislike fog") = true ∧
    3 ≤ 3 :=
  hasComprehensiveInfo_checked_categories.2.2.1
    "income stated; i prefer parks; i enjoy them; i dislike fog" 3 (by decide)

/-- C2: api.py imports analyze_move_non_interactive and save_report from a
module agno_coordinator, but no importable top-level module of that name
exists in the repository (the file agno-coordinator.py has an invalid
module name because of the hyphen, and in any case binds neither imported
name), so the import of api.py cannot resolve and run_analysis can never
execute. -/
theorem api_agno_coordinator_import_unresolvable :
    importableModules.contains "agno_coordinator" = false ∧
    apiImportResolves = false ∧
    agnoCoordinatorTopLevelDefs.contains "analyze_move_non_interactive" = false ∧
    agnoCoordinatorTopLevelDefs.contains "save_report" = false ∧
    isValidModuleName "agno-coordinator" = false := by
  refine ⟨?_, ?_, ?_, ?_, ?_⟩ <;> decide

/-- C8: the completeness predicate of both variants is false whenever fewer
than three question rounds have been asked, whatever the transcript
contains; consequently an early extraction return of either elicitation
loop can only happen at round three or later. -/
theorem min_question_rounds_gate :
    (∀ (t : String) (qc : Nat), qc < 3 →
      coordHasComprehensiveInfo t qc = false ∧
      coopHasComprehensiveInfo t qc = false) ∧
    (∀ (env : GatherEnv UserProfile) (s : String) (p : UserProfile) (c : Nat),
      coordGatherUserInformation env s = .early p c → 3 ≤ c) ∧
    (∀ (env : GatherEnv CoopUserProfile) (s : String) (p : CoopUserProfile) (c : Nat),
      coopGatherUserInformation env s = .early p c → 3 ≤ c) := by
  refine ⟨fun t qc hlt => ?_, fun env s p c heq => ?_, fun env s p c heq => ?_⟩
  · have h3 : decide (3 ≤ qc) = false := by
      simp only [decide_eq_false_iff_not]
      omega
    constructor
    · simp [coordHasComprehensiveInfo, h3]
    · simp [coopHasComprehensiveInfo, h3]
  · obtain ⟨⟨h', hatt⟩, -⟩ :=
      gatherLoopAux_early coordGatherConfig env _ _ _ _ _ heq
    exact coordComplete_min_rounds h' c
      (earlyExtractAttempt_eq_some _ _ _ _ _ hatt).1
  · obtain ⟨⟨h', hatt⟩, -⟩ :=
      gatherLoopAux_early coopGatherConfig env _ _ _ _ _ heq
    exact coopComplete_min_rounds h' c
      (earlyExtractAttempt_eq_some _ _ _ _ _ hatt).1

/-- C7: the elicitation loop of either variant never asks more than its
configured maximum number of question rounds (8 in coordination, 10 in
cooperation); when the counter reaches the maximum the loop performs the
final forced extraction on the accumulated transcript; and an asked round
advances the counter by exactly one. -/
theorem elicitation_turn_bound :
    (∀ (env : GatherEnv UserProfile) (s : String),
      gatherCount (coordGatherUserInformation env s) ≤ 8) ∧
    (∀ (env : GatherEnv CoopUserProfile) (s : String),
      gatherCount (coopGatherUserInformation env s) ≤ 10) ∧
    (∀ (env : GatherEnv UserProfile) (h : String),
      gatherLoop coordGatherConfig env h 8 = gatherFinal coordGatherConfig env h 8) ∧
    (∀ (env : GatherEnv CoopUserProfile) (h : String),
      gatherLoop coopGatherConfig env h 10 = gatherFinal coopGatherConfig env h 10) ∧
    (∀ (env : GatherEnv UserProfile) (fuel : Nat) (h q : String) (c : Nat),
      coordHasComprehensiveInfo h c = false →
      env.question (h ++ coordGatherConfig.questionSuffix) = some q →
      gatherLoopAux coordGatherConfig env (fuel + 1) h c =
        gatherLoopAux coordGatherConfig env fuel
          (h ++ "Assistant: " ++ q ++ "\n" ++ "User: " ++
            pyAnswerFix (env.answer c) ++ "\n\n")
          (c + 1)) := by
  refine ⟨fun env s => ?_, fun env s => ?_, fun env h => ?_, fun env h => ?_,
    fun env fuel h q c hcomp hq => ?_⟩
  · have := gatherLoopAux_count_le coordGatherConfig env 8 (initialHistory s) 0
    simpa [coordGatherUserInformation, gatherLoop, coordGatherConfig] using this
  · have := gatherLoopAux_count_le coopGatherConfig env 10 (initialHistory s) 0
    simpa [coopGatherUserInformation, gatherLoop, coopGatherConfig] using this
  · simp [gatherLoop, coordGatherConfig, gatherLoopAux]
  · simp [gatherLoop, coopGatherConfig, gatherLoopAux]
  · have hatt : earlyExtractAttempt coordGatherConfig env h c = none := by
      simp [earlyExtractAttempt, coordGatherConfig, hcomp]
    exact gatherLoopAux_step_ask _ _ _ _ _ _ hatt hq

/-- C7 witness: one asked round of the demo session advances the counter
from zero to one. -/
theorem elicitation_turn_bound_witness :
    gatherLoopAux coordGatherConfig demoEnv 8 (initialHistory "hi") 0 =
      gatherLoopAux coordGatherConfig demoEnv 7
        (initialHistory "hi" ++ "Assistant: " ++ "q?" ++ "\n" ++ "User: " ++
          pyAnswerFix (demoEnv.answer 0) ++ "\n\n")
        1 :=
  elicitation_turn_bound.2.2.2.2 demoEnv 7 (initialHistory "hi") "q?" 0
    (by decide) (by decide)

/-- C9: an extracted profile is accepted by an early return of the
elicitation loop only when both city fields are non-empty and each splits
into at most four whitespace tokens; when the completeness predicate holds
but the extracted profile fails validation, the loop instead asks the next
question and stays in the gathering state for one more round. -/
theorem extraction_validation_gate :
    (∀ (env : GatherEnv UserProfile) (s : String) (p : UserProfile) (c : Nat),
      coordGatherUserInformation env s = .early p c →
      p.current_city ≠ "" ∧ p.desired_city ≠ "" ∧
      pyWordCount p.current_city ≤ 4 ∧ pyWordCount p.desired_city ≤ 4) ∧
    (∀ (env : GatherEnv CoopUserProfile) (s : String) (p : CoopUserProfile) (c : Nat),
      coopGatherUserInformation env s = .early p c →
      p.current_city ≠ "" ∧ p.desired_city ≠ "" ∧
      pyWordCount p.current_city ≤ 4 ∧ pyWordCount p.desired_city ≤ 4) ∧
    (∀ (env : GatherEnv UserProfile) (fuel : Nat) (h : String) (c : Nat)
        (p : UserProfile) (q : String),
      coordHasComprehensiveInfo h c = true →
      env.extract (h ++ coordGatherConfig.earlyExtractSuffix) = some p →
      coordValidateProfile p = false →
      env.question (h ++ coordGatherConfig.questionSuffix) = some q →
      gatherLoopAux coordGatherConfig env (fuel + 1) h c =
        gatherLoopAux coordGatherConfig env fuel
          (h ++ "Assistant: " ++ q ++ "\n" ++ "User: " ++
            pyAnswerFix (env.answer c) ++ "\n\n")
          (c + 1)) := by
  refine ⟨fun env s p c heq => ?_, fun env s p c heq => ?_,
    fun env fuel h c p q hcomp hex hval hq => ?_⟩
  · obtain ⟨⟨h', hatt⟩, -⟩ :=
      gatherLoopAux_early coordGatherConfig env _ _ _ _ _ heq
    have hv := (earlyExtractAttempt_eq_some _ _ _ _ _ hatt).2.2
    simp only [coordGatherConfig] at hv
    simp only [coordValidateProfile, Bool.and_eq_true, Bool.not_eq_true',
      decide_eq_true_eq] at hv
    exact ⟨ne_empty_of_isEmpty_false _ hv.1.1.1, ne_empty_of_isEmpty_false _ hv.1.1.2,
      hv.1.2, hv.2⟩
  · obtain ⟨⟨h', hatt⟩, -⟩ :=
      gatherLoopAux_early coopGatherConfig env _ _ _ _ _ heq
    have hv := (earlyExtractAttempt_eq_some _ _ _ _ _ hatt).2.2
    simp only [coopGatherConfig] at hv
    simp only [coopValidateProfile, Bool.and_eq_true, Bool.not_eq_true',
      decide_eq_true_eq] at hv
    exact ⟨ne_empty_of_isEmpty_false _ hv.1.1.1.1,
      ne_empty_of_isEmpty_false _ hv.1.1.1.2, hv.1.2, hv.2⟩
  · have hatt : earlyExtractAttempt coordGatherConfig env h c = none := by
      simp only [coordGatherConfig] at hex
      simp [earlyExtractAttempt, coordGatherConfig, hcomp, hex, hval]
    exact gatherLoopAux_step_ask _ _ _ _ _ _ hatt hq

/-- C9 witness: the demo session returns early with a profile whose city
fields pass the validation conditions. -/
theorem extraction_validation_gate_witness :
    demoProfile.current_city ≠ "" ∧ demoProfile.desired_city ≠ "" ∧
    pyWordCount demoProfile.current_city ≤ 4 ∧
    pyWordCount demoProfile.desired_city ≤ 4 :=
  extraction_validation_gate.1 demoEnv "hi" demoProfile 3 (by decide)

/-- C10: the elicitation flow of either variant always delivers a profile:
when the extraction engine fails on every attempt, the flow ends in the
fallback branch and returns the default sentinel profile, whose city
fields are the fixed placeholder strings; and an extraction failure in a
round with the completeness predicate satisfied is contained — the loop
asks the next question instead of aborting. -/
theorem elicitation_total_with_sentinel :
    (∀ (env : GatherEnv UserProfile) (s : String),
      env.extract = (fun _ => none) →
      gatherProfile coordGatherConfig (coordGatherUserInformation env s) =
        coordDefaultProfile) ∧
    (∀ (env : GatherEnv CoopUserProfile) (s : String),
      env.extract = (fun _ => none) →
      gatherProfile coopGatherConfig (coopGatherUserInformation env s) =
        coopDefaultProfile) ∧
    coordDefaultProfile.current_city = "Unknown City" ∧
    coordDefaultProfile.desired_city = "Unknown Destination" ∧
    coopDefaultProfile.current_city = "Unknown City" ∧
    coopDefaultProfile.desired_city = "Unknown Destination" ∧
    (∀ (env : GatherEnv UserProfile) (fuel : Nat) (h : String) (c : Nat) (q : String),
      env.extract (h ++ coordGatherConfig.earlyExtractSuffix) = none →
      env.question (h ++ coordGatherConfig.questionSuffix) = some q →
      gatherLoopAux coordGatherConfig env (fuel + 1) h c =
        gatherLoopAux coordGatherConfig env fuel
          (h ++ "Assistant: " ++ q ++ "\n" ++ "User: " ++
            pyAnswerFix (env.answer c) ++ "\n\n")
          (c + 1)) := by
  refine ⟨fun env s hx => ?_, fun env s hx => ?_, rfl, rfl, rfl, rfl,
    fun env fuel h c q hex hq => ?_⟩
  · obtain ⟨n, hn⟩ := gatherLoopAux_extract_none coordGatherConfig env hx
      (coordGatherConfig.maxQuestions - 0) (initialHistory s) 0
    simp only [coordGatherUserInformation, gatherLoop]
    rw [hn]
    rfl
  · obtain ⟨n, hn⟩ := gatherLoopAux_extract_none coopGatherConfig env hx
      (coopGatherConfig.maxQuestions - 0) (initialHistory s) 0
    simp only [coopGatherUserInformation, gatherLoop]
    rw [hn]
    rfl
  · have hatt : earlyExtractAttempt coordGatherConfig env h c = none := by
      simp only [coordGatherConfig] at hex
      simp [earlyExtractAttempt, coordGatherConfig, hex]
    exact gatherLoopAux_step_ask _ _ _ _ _ _ hatt hq

/-- C10 witness: with an always-failing extraction engine both variants
return their sentinel profiles. -/
theorem elicitation_total_with_sentinel_witness :
    gatherProfile coordGatherConfig (coordGatherUserInformation failExtractEnv "hi") =
      coordDefaultProfile ∧
    gatherProfile coopGatherConfig (coopGatherUserInformation failExtractCoopEnv "hi") =
      coopDefaultProfile :=
  ⟨elicitation_total_with_sentinel.1 failExtractEnv "hi" rfl,
    elicitation_total_with_sentinel.2.1 failExtractCoopEnv "hi" rfl⟩

/-- C3 counterexample: in the cooperation main the three worker calls do
not run concurrently — in the event order of the orchestration no two
distinct worker call intervals overlap, so there is no parallel fan-out and
no join. -/
theorem cooperate_workers_not_concurrent :
    runsConcurrently cooperateSchedule .cost .sentiment = false ∧
    runsConcurrently cooperateSchedule .cost .migration = false ∧
    runsConcurrently cooperateSchedule .sentiment .migration = false := by
  refine ⟨?_, ?_, ?_⟩ <;> decide

/-- C3 amended: the cooperation main invokes the three workers one after
the other — cost analyst, then sentiment analyst, then migration
researcher, each call returning before the next begins and all before the
synthesis call — and every worker receives the identical agent_task prompt,
which states the priority factor of the profile. -/
theorem cooperate_sequential_identical_prompt :
    (∀ (w w' : CoopWorker) (p : CoopUserProfile),
      coopWorkerPrompt w p = coopWorkerPrompt w' p) ∧
    (∀ p : CoopUserProfile, ∃ pre post : String,
      coopAgentTask p = pre ++ (priorityStr p ++ post)) ∧
    listIdx cooperateSchedule (.callDone .cost) <
      listIdx cooperateSchedule (.callBegin .sentiment) ∧
    listIdx cooperateSchedule (.callDone .sentiment) <
      listIdx cooperateSchedule (.callBegin .migration) ∧
    listIdx cooperateSchedule (.callDone .migration) <
      listIdx cooperateSchedule .synthesize :=
  ⟨fun _ _ _ => rfl,
    fun p => ⟨coopAgentTaskPre p, coopAgentTaskPost p, rfl⟩,
    by decide, by decide, by decide⟩

/-- C4 counterexample: when one worker call raises irrecoverably, the
cooperation main does not produce a degraded decision — the exception
propagates (there is no try/except around the worker run calls) and the
whole request aborts before any synthesis input is assembled. -/
theorem cooperate_worker_exception_aborts_request :
    cooperateGatherFindings .raises (.withContent "sentiment analysis")
      (.withContent "migration analysis") = .error () := rfl

/-- C4 amended: only a worker response lacking structured content is
tolerated — the synthesis input is still assembled, with the literal
"Not available" marking the missing perspective and the other two analyses
present — whereas an exception in any worker call propagates and aborts the
whole request. -/
theorem cooperate_missing_content_degrades :
    (∀ s m, cooperateGatherFindings .missingContent (.withContent s) (.withContent m) =
      .ok ⟨"Not available", s, m⟩) ∧
    (∀ c m, cooperateGatherFindings (.withContent c) .missingContent (.withContent m) =
      .ok ⟨c, "Not available", m⟩) ∧
    (∀ c s, cooperateGatherFindings (.withContent c) (.withContent s) .missingContent =
      .ok ⟨c, s, "Not available"⟩) ∧
    (∀ o₁ o₂, cooperateGatherFindings .raises o₁ o₂ = .error ()) ∧
    (∀ c o₂, cooperateGatherFindings (.withContent c) .raises o₂ = .error ()) ∧
    (∀ c s, cooperateGatherFindings (.withContent c) (.withContent s) .raises = .error ()) :=
  ⟨fun _ _ => rfl, fun _ _ => rfl, fun _ _ => rfl,
    fun _ _ => rfl, fun _ _ => rfl, fun _ _ => rfl⟩

/-- C5: the router flow yields a profile whose primary concern is always
one of cost, culture and experiences; the declared routing policy sends
each concern to its matching specialist and exactly one specialist is
delegated to per request; an unclear concern falls back to the cost analyst
when a financial mention exists and to the sentiment analyst otherwise; and
respond_directly makes the selected specialist response the final answer
with no further synthesis. -/
theorem route_single_specialist_dispatch :
    (∀ (ci di chi : List String) (add : String) (p : RouterUserProfile),
      routerGatherUserInformation ci di chi add = some p →
      p.primary_concern = "cost" ∨ p.primary_concern = "culture" ∨
        p.primary_concern = "experiences") ∧
    (∀ (p : RouterUserProfile) (hf : Bool), (invokedSpecialists p hf).length = 1) ∧
    (∀ hf, routeSpecialist "cost" hf = .costAnalyst) ∧
    (∀ hf, routeSpecialist "culture" hf = .sentimentAnalyst) ∧
    (∀ hf, routeSpecialist "experiences" hf = .migrationResearcher) ∧
    (∀ other : String, other ≠ "cost" → other ≠ "culture" → other ≠ "experiences" →
      routeSpecialist other true = .costAnalyst ∧
      routeSpecialist other false = .sentimentAnalyst) ∧
    moveDecisionRouterRespondDirectly = true := by
  have hchoice : ∀ (chi : List String) (c : String), firstValidChoice chi = some c →
      c = "cost" ∨ c = "culture" ∨ c = "experiences" := by
    intro chi
    induction chi with
    | nil => intro c hc; simp [firstValidChoice] at hc
    | cons s rest ih =>
      intro c hc
      rw [firstValidChoice] at hc
      cases hf : routerConcernMap.find? (fun kv => kv.1 == s) with
      | some kv =>
        rw [hf] at hc
        simp only [Option.some.injEq] at hc
        subst hc
        have hm := List.mem_of_find?_eq_some hf
        simp only [routerConcernMap, List.mem_cons, List.mem_singleton,
          List.not_mem_nil, or_false] at hm
        rcases hm with h | h | h <;> subst h <;> simp
      | none =>
        rw [hf] at hc
        exact ih c hc
  refine ⟨fun ci di chi add p hp => ?_, fun p hf => rfl,
    fun hf => rfl, fun hf => rfl, fun hf => rfl,
    fun other h1 h2 h3 => ?_, rfl⟩
  · unfold routerGatherUserInformation at hp
    cases hcur : firstNonEmpty ci with
    | none => rw [hcur] at hp; cases hp
    | some cur =>
      rw [hcur] at hp
      cases hdes : firstNonEmpty di with
      | none => rw [hdes] at hp; cases hp
      | some des =>
        rw [hdes] at hp
        cases hch : firstValidChoice chi with
        | none => rw [hch] at hp; cases hp
        | some concern =>
          rw [hch] at hp
          simp only [Option.some.injEq] at hp
          subst hp
          exact hchoice chi concern hch
  · constructor <;> simp [routeSpecialist, h1, h2, h3]

/-- C5 witness: a concrete router session choosing option 2 is routed to
the sentiment analyst, and an unclear concern falls back by the financial
tie-break. -/
theorem route_single_specialist_dispatch_witness :
    ("culture" = "cost" ∨ "culture" = "culture" ∨ "culture" = "experiences") ∧
    (routeSpecialist "unspecified" true = .costAnalyst ∧
      routeSpecialist "unspecified" false = .sentimentAnalyst) :=
  ⟨route_single_specialist_dispatch.1 ["Dallas"] ["Austin"] ["2"] ""
      ⟨"Dallas", "Austin", "culture", none⟩ (by decide),
    route_single_specialist_dispatch.2.2.2.2.2.1 "unspecified"
      (by decide) (by decide) (by decide)⟩

/-- C6 counterexample: the report the router main persists is named with
the suffix _router_analysis.md, not the claimed _analysis.md, and the
retrieval glob of get_report_markdown therefore does not match it. -/
theorem router_report_name_mismatch_cex :
    routerReportFilename "Dallas" "Austin" "20250106_143022" =
      "dallas_to_austin_20250106_143022_router_analysis.md" ∧
    routerReportFilename "Dallas" "Austin" "20250106_143022" ≠
      "dallas_to_austin_20250106_143022_analysis.md" ∧
    globMatchStr (apiReportGlob "20250106_143022")
      (routerReportFilename "Dallas" "Austin" "20250106_143022") = false := by
  refine ⟨?_, ?_, ?_⟩ <;> decide

/-- C6 amended: location segments are normalized to lowercase with every
character outside [a-z0-9] turned into an underscore (underscores trimmed
at the ends); the retrieval endpoint extracts YYYYMMDD_HHMMSS from the
analysis id and globs for names matching the coordinator contract
suffix _analysis.md — which matches reports named per the coordinator Team
contract but not the _router_analysis.md files the router main writes. -/
theorem report_naming_amended :
    (∀ (s : String) (c : Char), c ∈ (routerNormalizeCity s).data →
      isLowerAlnumChar c = true ∨ c = '_') ∧
    extractReportTimestamp "analysis_20250106_143022_934692" =
      some "20250106_143022" ∧
    globMatchStr (apiReportGlob "20250106_143022")
      (coordinatorReportFilename "Dallas" "Austin" "20250106_143022") = true ∧
    globMatchStr (apiReportGlob "20250106_143022")
      (routerReportFilename "Dallas" "Austin" "20250106_143022") = false := by
  refine ⟨fun s c hc => ?_, by decide, by decide, by decide⟩
  · simp only [routerNormalizeCity] at hc
    have hc₂ : c ∈ (pyLower s).map
        (fun c => if isLowerAlnumChar c then c else '_') := by
      have hsub : c ∈ ((((pyLower s).map
          (fun c => if isLowerAlnumChar c then c else '_')).dropWhile
            (fun c => c == '_')).reverse.dropWhile (fun c => c == '_')) := by
        rw [← List.mem_reverse]
        exact hc
      have := List.dropWhile_subset (l :=
        (((pyLower s).map (fun c => if isLowerAlnumChar c then c else '_')).dropWhile
          (fun c => c == '_')).reverse) (fun c => c == '_') hsub
      rw [List.mem_reverse] at this
      exact List.dropWhile_subset _ this
    obtain ⟨a, -, rfl⟩ := List.mem_map.mp hc₂
    by_cases ha : isLowerAlnumChar a = true
    · left
      simp [ha]
    · right
      simp [ha]

/-- C6 witness: the normalization property at a concrete city name and
character. -/
theorem report_naming_amended_witness :
    isLowerAlnumChar 'd' = true ∨ 'd' = '_' :=
  report_naming_amended.1 "Dallas" 'd' (by decide)

/-- C8 witness: a maximally keyword-rich transcript is still rejected at
round two, and the demo session returns early exactly at round three. -/
theorem min_question_rounds_gate_witness :
    (coordHasComprehensiveInfo
        "income budget prefer enjoy dislike most important" 2 = false ∧
      coopHasComprehensiveInfo
        "income budget prefer enjoy dislike most important" 2 = false) ∧
    3 ≤ 3 :=
  ⟨min_question_rounds_gate.1
      "income budget prefer enjoy dislike most important" 2 (by omega),
    min_question_rounds_gate.2.1 demoEnv "hi" demoProfile 3 (by decide)⟩
